import Mathlib

/-!
Verification of the dexter step-trace model and debugger-backend registry.

Shallow embedding of `src/dex/dextIR/DextIR.py` and
`src/dex/debugger/Debuggers.py`.  Types that those files import from
elsewhere in the repository (`LocIR`, `StepIR`, `StepKind`, the backend
capability surface of `DebuggerBase`) are modelled from the spec and marked
as such in their doc comments.
-/

namespace Dexter

/-- The `StepKind` closed enumeration (spec §3; imported by `DextIR.py` from
`dex.dextIR.StepIR`). -/
inductive StepKind where
  | FUNC
  | FUNC_EXTERNAL
  | FUNC_UNKNOWN
  | SAME
  | FORWARD
  | BACKWARD
  | UNKNOWN
deriving DecidableEq, Repr

/-- Modelled from the spec: `LocIR` (the shared IR location type) is not under
`src/`; only its callers are.  Spec §3: a Location is
`{path: optional string, line: optional integer, column: optional integer}`
with a "Total order defined over `(line, column)` when two locations are
compared", while "Equality requires identical path, line, and column". -/
structure LocIR where
  path : Option String
  lineno : Option Int
  column : Option Int
deriving DecidableEq, Repr

/-- Modelled from the spec: strict order on one optional component of a
location, an absent component ordering below any present one (the spec leaves
absent components open; §9 recommends a single total order on the pair). -/
def optIntLt (a b : Option Int) : Bool :=
  match a, b with
  | none, none => false
  | none, some _ => true
  | some _, none => false
  | some x, some y => x < y

/-- Modelled from the spec: Location equality — identical path, line and
column (spec §3). -/
def locEq (a b : LocIR) : Bool :=
  a.path == b.path && a.lineno == b.lineno && a.column == b.column

/-- Modelled from the spec: the strict `<` on locations — lexicographic on
`(line, column)` (spec §3, §9).  The path takes no part in the order. -/
def locLt (a b : LocIR) : Bool :=
  optIntLt a.lineno b.lineno || (a.lineno == b.lineno && optIntLt a.column b.column)

/-- Modelled from the spec: the strict `>` on locations, the dual of `<`. -/
def locGt (a b : LocIR) : Bool :=
  locLt b a

/-- Modelled from the spec: the slice of `StepIR` that `DextIR.py` reads and
writes (spec §3): `current_function: optional string`,
`current_location: Location`, and `step_kind`, created unset by the caller
(`none`) and assigned exactly once by the trace. -/
structure StepIR where
  current_function : Option String
  current_location : LocIR
  step_kind : Option StepKind
deriving DecidableEq, Repr

/-- Python `step.current_location.path in source_paths`: membership of an
optional path in a list of strings (`None` is never equal to a string). -/
def optPathMem (p : Option String) (source_paths : List String) : Bool :=
  match p with
  | some s => source_paths.contains s
  | none => false

/-- `_step_kind_func` from `DextIR.py`: the function-entry classification. -/
def _step_kind_func (source_paths : List String) (step : StepIR) : StepKind :=
  if optPathMem step.current_location.path source_paths then
    StepKind.FUNC
  else if step.current_location.path == none then
    StepKind.FUNC_UNKNOWN
  else
    StepKind.FUNC_EXTERNAL

/-- The `DextIR` trace aggregate from `DextIR.py`.  `BuilderIR`, `DebuggerIR`
and the command mapping are opaque collaborators here, so the structure is
polymorphic in their types. -/
structure DextIR (B D C : Type) where
  dexter_version : String
  executable_path : String
  source_paths : List String
  builder : Option B
  debugger : Option D
  commands : Option C
  steps : List StepIR
deriving Repr

namespace DextIR

variable {B D C : Type}

/-- `DextIR.num_steps`. -/
def num_steps (t : DextIR B D C) : Nat :=
  t.steps.length

/-- The branch structure of `DextIR.new_step` that chooses the kind to assign.
`prev` is `self.steps[-1]` when it exists (`IndexError` branch otherwise).
The Python `if`/`elif` chain for the same-function case has no `else`, so when
none of the three location comparisons holds no assignment happens and the
step keeps the kind it arrived with. -/
def new_step_kind (source_paths : List String) (prev : Option StepIR)
    (step : StepIR) : Option StepKind :=
  match step.current_function with
  | none => some StepKind.UNKNOWN
  | some f =>
    match prev with
    | none => some (_step_kind_func source_paths step)
    | some prev_step =>
      match prev_step.current_function with
      | none => some StepKind.UNKNOWN
      | some pf =>
        if pf ≠ f then
          some (_step_kind_func source_paths step)
        else if locEq prev_step.current_location step.current_location then
          some StepKind.SAME
        else if locGt prev_step.current_location step.current_location then
          some StepKind.BACKWARD
        else if locLt prev_step.current_location step.current_location then
          some StepKind.FORWARD
        else
          step.step_kind

/-- `DextIR.new_step`: classify the step against the last stored step, append
it, and return the stored step. -/
def new_step (t : DextIR B D C) (step : StepIR) : DextIR B D C × StepIR :=
  let stored :=
    { step with step_kind := new_step_kind t.source_paths t.steps.getLast? step }
  ({ t with steps := t.steps ++ [stored] }, stored)

/-- Appending a list of steps one at a time (left fold over `new_step`). -/
def new_steps (t : DextIR B D C) (l : List StepIR) : DextIR B D C :=
  l.foldl (fun acc s => (acc.new_step s).1) t

/-- `DextIR.clear_steps`: `self.steps.clear()`. -/
def clear_steps (t : DextIR B D C) : DextIR B D C :=
  { t with steps := [] }

end DextIR

/-! ### Properties of the modelled location order -/

theorem optIntLt_irrefl (a : Option Int) : optIntLt a a = false := by
  cases a
  · rfl
  · simp [optIntLt]

theorem optIntLt_asymm {a b : Option Int} (h : optIntLt a b = true) :
    optIntLt b a = false := by
  cases a <;> cases b <;> simp_all [optIntLt] <;> omega

theorem locEq_symm (a b : LocIR) : locEq a b = locEq b a := by
  rw [Bool.eq_iff_iff]
  simp [locEq]
  constructor
  · intro h
    exact ⟨⟨h.1.1.symm, h.1.2.symm⟩, h.2.symm⟩
  · intro h
    exact ⟨⟨h.1.1.symm, h.1.2.symm⟩, h.2.symm⟩

theorem locLt_eq_false_of_locEq {a b : LocIR} (h : locEq a b = true) :
    locLt a b = false := by
  simp [locEq] at h
  simp [locLt, h.1.2, h.2, optIntLt_irrefl]

theorem locLt_asymm {a b : LocIR} (h : locLt a b = true) : locLt b a = false := by
  obtain ⟨ap, al, ac⟩ := a
  obtain ⟨bp, bl, bc⟩ := b
  cases al <;> cases bl <;> cases ac <;> cases bc <;>
    simp_all [locLt, optIntLt] <;> omega

theorem locEq_eq_false_of_locGt {a b : LocIR} (h : locGt a b = true) :
    locEq a b = false := by
  by_contra hc
  have heq : locEq a b = true := by
    cases he : locEq a b
    · exact absurd he hc
    · rfl
  have : locLt b a = false := locLt_eq_false_of_locEq ((locEq_symm b a) ▸ heq)
  rw [locGt] at h
  rw [this] at h
  exact Bool.false_ne_true h

theorem locEq_eq_false_of_locLt {a b : LocIR} (h : locLt a b = true) :
    locEq a b = false := by
  by_contra hc
  have heq : locEq a b = true := by
    cases he : locEq a b
    · exact absurd he hc
    · rfl
  have := locLt_eq_false_of_locEq heq
  rw [this] at h
  exact Bool.false_ne_true h

/-- `new_step` stores the step with exactly the kind chosen by the branch
structure, computed against the last stored step. -/
theorem new_step_snd_step_kind {B D C : Type} (t : DextIR B D C) (step : StepIR) :
    (t.new_step step).2.step_kind =
      DextIR.new_step_kind t.source_paths t.steps.getLast? step := rfl

/-! ### Shared concrete fixtures for witnesses -/

def exLoc (p : String) (l : Int) : LocIR :=
  ⟨some p, some l, none⟩

def exStep (fn : Option String) (p : String) (l : Int) : StepIR :=
  ⟨fn, exLoc p l, none⟩

def exTrace (steps : List StepIR) : DextIR Unit Unit Unit :=
  ⟨"1.0.0", "a.out", ["file.c"], none, none, none, steps⟩

/-! ### Claims about the step-trace model -/

/-- C1: for every step appended via `new_step` whose `current_function` is
present, if the trace has no previous step or the previous step's function
differs from the current one, the assigned `step_kind` is `FUNC` when the
step's location path is a member of `source_paths`, `FUNC_UNKNOWN` when the
path is absent, and `FUNC_EXTERNAL` otherwise. -/
theorem new_step_function_entry_classification {B D C : Type} (t : DextIR B D C)
    (step : StepIR) (f : String) (hf : step.current_function = some f)
    (hentry : t.steps.getLast? = none ∨
      ∃ prev pf, t.steps.getLast? = some prev ∧
        prev.current_function = some pf ∧ pf ≠ f) :
    (optPathMem step.current_location.path t.source_paths = true →
      (t.new_step step).2.step_kind = some StepKind.FUNC) ∧
    (step.current_location.path = none →
      (t.new_step step).2.step_kind = some StepKind.FUNC_UNKNOWN) ∧
    (step.current_location.path ≠ none →
      optPathMem step.current_location.path t.source_paths = false →
      (t.new_step step).2.step_kind = some StepKind.FUNC_EXTERNAL) := by
  have hk : (t.new_step step).2.step_kind =
      some (_step_kind_func t.source_paths step) := by
    rw [new_step_snd_step_kind]
    rcases hentry with h | ⟨prev, pf, hp, hpf, hne⟩
    · rw [h]
      simp [DextIR.new_step_kind, hf]
    · rw [hp]
      simp [DextIR.new_step_kind, hf, hpf, hne]
  refine ⟨?_, ?_, ?_⟩
  · intro hmem
    rw [hk]
    simp [_step_kind_func, hmem]
  · intro hnone
    rw [hk]
    simp [_step_kind_func, optPathMem, hnone]
  · intro hsome hmem
    rw [hk]
    obtain ⟨s, hs⟩ := Option.ne_none_iff_exists'.mp hsome
    rw [hs] at hmem
    simp [_step_kind_func, hs, hmem]

/-- Witness for C1: first step of an empty trace, function `main`, path
`file.c` which is in `source_paths`, classified `FUNC`. -/
theorem new_step_function_entry_classification_witness :
    ((exTrace []).new_step (exStep (some "main") "file.c" 10)).2.step_kind =
      some StepKind.FUNC :=
  (new_step_function_entry_classification (exTrace [])
    (exStep (some "main") "file.c" 10) "main" rfl (Or.inl rfl)).1 (by decide)

/-- C2: a step with absent `current_function` is classified `UNKNOWN`
regardless of history, and a step with present `current_function` whose
predecessor exists and has absent `current_function` is also classified
`UNKNOWN`. -/
theorem new_step_unknown_classification {B D C : Type} (t : DextIR B D C)
    (step : StepIR) :
    (step.current_function = none →
      (t.new_step step).2.step_kind = some StepKind.UNKNOWN) ∧
    (∀ f prev, step.current_function = some f → t.steps.getLast? = some prev →
      prev.current_function = none →
      (t.new_step step).2.step_kind = some StepKind.UNKNOWN) := by
  constructor
  · intro hf
    rw [new_step_snd_step_kind]
    simp [DextIR.new_step_kind, hf]
  · intro f prev hf hp hpf
    rw [new_step_snd_step_kind, hp]
    simp [DextIR.new_step_kind, hf, hpf]

/-- Witness for C2: a step with no function is classified `UNKNOWN`. -/
theorem new_step_unknown_classification_witness :
    ((exTrace []).new_step (exStep none "file.c" 21)).2.step_kind =
      some StepKind.UNKNOWN :=
  (new_step_unknown_classification (exTrace []) (exStep none "file.c" 21)).1 rfl

/-- C3: for a step whose function is present and equals the previous step's
function, the assigned kind is `SAME` when the two locations are equal,
`BACKWARD` when the previous location is strictly greater, and `FORWARD` when
the previous location is strictly less. -/
theorem new_step_same_function_classification {B D C : Type} (t : DextIR B D C)
    (step prev : StepIR) (f : String) (hp : t.steps.getLast? = some prev)
    (hf : step.current_function = some f) (hpf : prev.current_function = some f) :
    (locEq prev.current_location step.current_location = true →
      (t.new_step step).2.step_kind = some StepKind.SAME) ∧
    (locGt prev.current_location step.current_location = true →
      (t.new_step step).2.step_kind = some StepKind.BACKWARD) ∧
    (locLt prev.current_location step.current_location = true →
      (t.new_step step).2.step_kind = some StepKind.FORWARD) := by
  refine ⟨?_, ?_, ?_⟩
  · intro heq
    rw [new_step_snd_step_kind, hp]
    simp [DextIR.new_step_kind, hf, hpf, heq]
  · intro hgt
    have hne := locEq_eq_false_of_locGt hgt
    rw [new_step_snd_step_kind, hp]
    simp [DextIR.new_step_kind, hf, hpf, hne, hgt]
  · intro hlt
    have hne := locEq_eq_false_of_locLt hlt
    have hngt : locGt prev.current_location step.current_location = false :=
      locLt_asymm hlt
    rw [new_step_snd_step_kind, hp]
    simp [DextIR.new_step_kind, hf, hpf, hne, hngt, hlt]

/-- Witness for C3: two steps in `main` at the same location; the second is
classified `SAME`. -/
theorem new_step_same_function_classification_witness :
    ((exTrace [exStep (some "main") "file.c" 10]).new_step
        (exStep (some "main") "file.c" 10)).2.step_kind = some StepKind.SAME :=
  (new_step_same_function_classification
    (exTrace [exStep (some "main") "file.c" 10])
    (exStep (some "main") "file.c" 10) (exStep (some "main") "file.c" 10)
    "main" rfl rfl rfl).1 (by decide)

/-- C4: the literal spec scenario: with `source_paths = ["file.c"]` and an
empty trace, appending `(main, file.c:10)`, `(main, file.c:10)`,
`(main, file.c:11)`, `(main, file.c:9)`, `(helper, file.c:20)`,
`(None, file.c:21)` yields the kind sequence
`[FUNC, SAME, FORWARD, BACKWARD, FUNC, UNKNOWN]`. -/
theorem new_step_literal_scenario :
    ((exTrace []).new_steps
      [exStep (some "main") "file.c" 10,
       exStep (some "main") "file.c" 10,
       exStep (some "main") "file.c" 11,
       exStep (some "main") "file.c" 9,
       exStep (some "helper") "file.c" 20,
       exStep none "file.c" 21]).steps.map (fun s => s.step_kind) =
    [some StepKind.FUNC, some StepKind.SAME, some StepKind.FORWARD,
     some StepKind.BACKWARD, some StepKind.FUNC, some StepKind.UNKNOWN] := by
  decide

/-- C9: `clear_steps` empties the step sequence (`num_steps` becomes 0) and
leaves every other trace field unchanged. -/
theorem clear_steps_frame {B D C : Type} (t : DextIR B D C) :
    t.clear_steps.num_steps = 0 ∧
    t.clear_steps.dexter_version = t.dexter_version ∧
    t.clear_steps.executable_path = t.executable_path ∧
    t.clear_steps.source_paths = t.source_paths ∧
    t.clear_steps.builder = t.builder ∧
    t.clear_steps.debugger = t.debugger ∧
    t.clear_steps.commands = t.commands := by
  simp [DextIR.clear_steps, DextIR.num_steps]

/-- C10: when the step's function equals the previous step's function but the
two locations satisfy none of the three comparisons (not equal, not greater,
not less), `new_step` assigns no kind: the step is still appended and
returned, with its `step_kind` (and every other field) unchanged. -/
theorem new_step_incomparable_locations_no_kind {B D C : Type}
    (t : DextIR B D C) (step prev : StepIR) (f : String)
    (hp : t.steps.getLast? = some prev) (hf : step.current_function = some f)
    (hpf : prev.current_function = some f)
    (hne : locEq prev.current_location step.current_location = false)
    (hngt : locGt prev.current_location step.current_location = false)
    (hnlt : locLt prev.current_location step.current_location = false) :
    (t.new_step step).1.steps = t.steps ++ [(t.new_step step).2] ∧
    (t.new_step step).2.step_kind = step.step_kind ∧
    (t.new_step step).2.current_function = step.current_function ∧
    (t.new_step step).2.current_location = step.current_location := by
  refine ⟨rfl, ?_, rfl, rfl⟩
  rw [new_step_snd_step_kind, hp]
  simp [DextIR.new_step_kind, hf, hpf, hne, hngt, hnlt]

/-- Witness for C10: same function `main`, same line and column but different
paths, so the locations are neither equal nor ordered; the appended step keeps
its unset kind (`none`). -/
theorem new_step_incomparable_locations_no_kind_witness :
    ((exTrace [exStep (some "main") "a.c" 10]).new_step
        (exStep (some "main") "b.c" 10)).1.steps =
      (exTrace [exStep (some "main") "a.c" 10]).steps ++
        [((exTrace [exStep (some "main") "a.c" 10]).new_step
            (exStep (some "main") "b.c" 10)).2] ∧
    ((exTrace [exStep (some "main") "a.c" 10]).new_step
        (exStep (some "main") "b.c" 10)).2.step_kind = none :=
  ⟨(new_step_incomparable_locations_no_kind
      (exTrace [exStep (some "main") "a.c" 10])
      (exStep (some "main") "b.c" 10) (exStep (some "main") "a.c" 10)
      "main" rfl rfl rfl (by decide) (by decide) (by decide)).1,
   (new_step_incomparable_locations_no_kind
      (exTrace [exStep (some "main") "a.c" 10])
      (exStep (some "main") "b.c" 10) (exStep (some "main") "a.c" 10)
      "main" rfl rfl rfl (by decide) (by decide) (by decide)).2.1⟩

/-! ### Debugger backend registry (`src/dex/debugger/Debuggers.py`) -/

/-- A candidate debugger implementation class as seen by discovery.  `name`
is the Python class's `__name__`; `module` stands for the rest of the class
object's identity (the module that defined it), so two values differing only
in `module` model two distinct implementations sharing a class name. -/
structure DebuggerClass where
  module : String
  name : String
deriving DecidableEq, Repr

/-- The discovery cache `_get_potential_debuggers.cached`: a Python dict from
`option_name` key to implementation class, in insertion order. -/
abbrev DebuggerCache := List (String × DebuggerClass)

/-- Python `key in cached` / `cached[key]` on the insertion-ordered dict. -/
def cacheLookup (cache : DebuggerCache) (key : String) : Option DebuggerClass :=
  match cache with
  | [] => none
  | (k, c) :: rest => if k = key then some c else cacheLookup rest key

/-- One registration step of the inner loop of `_get_potential_debuggers`:
if the key is already cached the code asserts that the cached class's
`__name__` equals the candidate's and leaves the cache unchanged; otherwise
it stores the candidate.  A failed assertion (`AssertionError`) is the
`Except.error` case, carrying the assert's message tuple
`(key, cached class, candidate class)`. -/
def registerDebugger (cache : DebuggerCache) (key : String) (c : DebuggerClass) :
    Except (String × DebuggerClass × DebuggerClass) DebuggerCache :=
  match cacheLookup cache key with
  | some c0 => if c0.name = c.name then .ok cache else .error (key, c0, c)
  | none => .ok (cache ++ [(key, c)])

/-- The discovery scan body of `_get_potential_debuggers`: walk the candidate
`(option_name, class)` pairs in order, registering each.  A failed assertion
aborts the walk; the first component is what the mutable
`_get_potential_debuggers.cached` dict holds at that point (the scan fills it
in place). -/
def scanDebuggers : List (String × DebuggerClass) → DebuggerCache →
    DebuggerCache × Option (String × DebuggerClass × DebuggerClass)
  | [], cache => (cache, none)
  | kc :: rest, cache =>
    match registerDebugger cache kc.1 kc.2 with
    | .ok cache' => scanDebuggers rest cache'
    | .error e => (cache, some e)

/-- `_get_potential_debuggers`, with the function attribute `cached` passed
as explicit state.  Returns the call's outcome (the cache, or the assertion
error it raises), the new `cached` state, and whether this call scanned the
candidate implementation sources. -/
def _get_potential_debuggers (candidates : List (String × DebuggerClass))
    (cached : Option DebuggerCache) :
    Except (String × DebuggerClass × DebuggerClass) DebuggerCache ×
      Option DebuggerCache × Bool :=
  match cached with
  | some c => (.ok c, some c, false)
  | none =>
    match scanDebuggers candidates [] with
    | (c, none) => (.ok c, some c, true)
    | (c, some e) => (.error e, some c, true)

/-- `Debuggers.potential_debuggers`, with the class attribute
`_potential_debuggers` and the function attribute of
`_get_potential_debuggers` passed as explicit state.  On `AttributeError`
(class attribute unset) it calls discovery and stores the result; if
discovery raises, the class attribute stays unset. -/
def potential_debuggers (candidates : List (String × DebuggerClass))
    (clsAttr : Option DebuggerCache) (fnAttr : Option DebuggerCache) :
    Except (String × DebuggerClass × DebuggerClass) DebuggerCache ×
      Option DebuggerCache × Option DebuggerCache × Bool :=
  match clsAttr with
  | some c => (.ok c, some c, fnAttr, false)
  | none =>
    match _get_potential_debuggers candidates fnAttr with
    | (.ok c, fnAttr', scanned) => (.ok c, some c, fnAttr', scanned)
    | (.error e, fnAttr', scanned) => (.error e, none, fnAttr', scanned)

/-! ### Claims about the registry -/

/-- Counterexample to C6 as stated: two *different* implementations (same
class name, different defining module) colliding under one key are not a
fatal assertion failure — the assert compares only the classes' `__name__`,
so the second registration is silently ignored. -/
theorem register_different_impls_same_name_not_fatal :
    (⟨"ModuleA", "Dbg"⟩ : DebuggerClass) ≠ ⟨"ModuleB", "Dbg"⟩ ∧
    registerDebugger [("dbg", ⟨"ModuleA", "Dbg"⟩)] "dbg" ⟨"ModuleB", "Dbg"⟩ =
      .ok [("dbg", ⟨"ModuleA", "Dbg"⟩)] :=
  ⟨by decide, rfl⟩

/-- C6 (amended): when a candidate's key is already cached, registration is a
silent no-op leaving the cache unchanged whenever the cached class's name
equals the candidate's — in particular when the implementations are
identical — and a fatal failed assertion exactly when the class names
differ. -/
theorem register_collision_behaviour (cache : DebuggerCache) (key : String)
    (c c0 : DebuggerClass) (h : cacheLookup cache key = some c0) :
    (c0.name = c.name → registerDebugger cache key c = .ok cache) ∧
    (c0 = c → registerDebugger cache key c = .ok cache) ∧
    (c0.name ≠ c.name → registerDebugger cache key c = .error (key, c0, c)) := by
  refine ⟨?_, ?_, ?_⟩
  · intro hn
    simp [registerDebugger, h, hn]
  · intro hc
    simp [registerDebugger, h, hc]
  · intro hn
    simp [registerDebugger, h, hn]

/-- Witness for C6 (amended): re-registering the identical implementation is
a no-op; a candidate with a different class name trips the assertion. -/
theorem register_collision_behaviour_witness :
    registerDebugger [("dbg", ⟨"ModuleA", "Dbg"⟩)] "dbg" ⟨"ModuleA", "Dbg"⟩ =
      .ok [("dbg", ⟨"ModuleA", "Dbg"⟩)] ∧
    registerDebugger [("dbg", ⟨"ModuleA", "Dbg"⟩)] "dbg" ⟨"ModuleA", "Other"⟩ =
      .error ("dbg", ⟨"ModuleA", "Dbg"⟩, ⟨"ModuleA", "Other"⟩) :=
  ⟨(register_collision_behaviour [("dbg", ⟨"ModuleA", "Dbg"⟩)] "dbg"
      ⟨"ModuleA", "Dbg"⟩ ⟨"ModuleA", "Dbg"⟩ rfl).2.1 rfl,
   (register_collision_behaviour [("dbg", ⟨"ModuleA", "Dbg"⟩)] "dbg"
      ⟨"ModuleA", "Other"⟩ ⟨"ModuleA", "Dbg"⟩ rfl).2.2 (by decide)⟩

/-- C7: discovery is memoized and idempotent.  After any call to
`_get_potential_debuggers` its `cached` attribute holds some cache `c`, and a
subsequent call returns exactly `c`, leaves the state at `c`, and performs no
re-scan of the candidate sources; likewise, once `potential_debuggers` has
set the class attribute to `c`, a subsequent call returns exactly `c`, leaves
both memo states unchanged, and performs no re-scan. -/
theorem discovery_memoized (candidates : List (String × DebuggerClass))
    (fnAttr clsAttr fnAttr2 : Option DebuggerCache) :
    (∃ c, (_get_potential_debuggers candidates fnAttr).2.1 = some c ∧
      _get_potential_debuggers candidates
          (_get_potential_debuggers candidates fnAttr).2.1 =
        (.ok c, some c, false)) ∧
    (∀ c, (potential_debuggers candidates clsAttr fnAttr2).2.1 = some c →
      potential_debuggers candidates
          (potential_debuggers candidates clsAttr fnAttr2).2.1
          (potential_debuggers candidates clsAttr fnAttr2).2.2.1 =
        (.ok c, some c, (potential_debuggers candidates clsAttr fnAttr2).2.2.1,
          false)) := by
  constructor
  · match fnAttr with
    | some c => exact ⟨c, rfl, rfl⟩
    | none =>
      match hs : scanDebuggers candidates [] with
      | (c, none) =>
        refine ⟨c, ?_, ?_⟩ <;> simp [_get_potential_debuggers, hs]
      | (c, some e) =>
        refine ⟨c, ?_, ?_⟩ <;> simp [_get_potential_debuggers, hs]
  · intro c hc
    match hcl : clsAttr with
    | some c0 =>
      simp [potential_debuggers] at hc ⊢
      simp [hc]
    | none =>
      match hg : _get_potential_debuggers candidates fnAttr2 with
      | (.ok c1, fn', sc) =>
        simp [potential_debuggers, hg] at hc ⊢
        simp [hc]
      | (.error e, fn', sc) =>
        simp [potential_debuggers, hg] at hc

/-- Witness for C7: with one concrete candidate and cold caches, the second
call of the accessor returns the cache built by the first, without
re-scanning. -/
theorem discovery_memoized_witness :
    potential_debuggers [("dbg", ⟨"ModuleA", "Dbg"⟩)]
        (potential_debuggers [("dbg", ⟨"ModuleA", "Dbg"⟩)] none none).2.1
        (potential_debuggers [("dbg", ⟨"ModuleA", "Dbg"⟩)] none none).2.2.1 =
      (.ok [("dbg", ⟨"ModuleA", "Dbg"⟩)], some [("dbg", ⟨"ModuleA", "Dbg"⟩)],
        (potential_debuggers [("dbg", ⟨"ModuleA", "Dbg"⟩)] none none).2.2.1,
        false) :=
  (discovery_memoized [("dbg", ⟨"ModuleA", "Dbg"⟩)] none none none).2
    [("dbg", ⟨"ModuleA", "Dbg"⟩)] (by decide)

/-! ### Backend listing (`Debuggers._populate_debugger_cache` / `Debuggers.list`) -/

/-- Modelled from the spec: the constructed backend session surface that the
registry reads (§6 backend capability contract).  `DebuggerBase` and the
concrete backends are not under `src/`; per the contract a session always
reports `is_available`, and exposes a `version` text on success or a
`loading_error` text plus optional `loading_error_trace` on failure —
construction failures are captured by the backend into these fields rather
than raised (§4.2).  A `none` text field models a missing attribute
(`AttributeError` on access). -/
structure BackendSession where
  name : String
  is_available : Bool
  version : Option String
  loading_error : Option String
  loading_error_trace : Option (List String)
deriving Repr, DecidableEq

/-- Splitting a character list at newline characters (the segments between
newlines, in order; always at least one segment). -/
def splitOnNewlines : List Char → List (List Char)
  | [] => [[]]
  | c :: cs =>
    if c = '\n' then [] :: splitOnNewlines cs
    else
      match splitOnNewlines cs with
      | [] => [[c]]
      | l :: ls => (c :: l) :: ls

/-- Python `str.splitlines` restricted to `\n` boundaries: splitting the
empty string yields no lines, and a trailing newline produces no trailing
empty line. -/
def splitlines (s : String) : List String :=
  let l := (splitOnNewlines s.toList).map (fun cs => String.mk cs)
  if l.getLast? = some "" then l.dropLast else l

/-- Python `str.rstrip`: drop trailing whitespace. -/
def pyRstrip (s : String) : String :=
  String.mk ((s.toList.reverse.dropWhile Char.isWhitespace).reverse)

/-- Python `'{name: <w}'.format(...)`: left-justify by padding with spaces to
width `w`. -/
def padRight (s : String) (w : Nat) : String :=
  s ++ String.mk (List.replicate (w - s.length) ' ')

/-- The per-backend snapshot built by `_populate_debugger_cache` (the
dynamically constructed `LoadedDebugger` class).  `version` is set only on
the available branch and `error`/`error_trace` only on the unavailable
branch; a `none` in `version`/`error` models the attribute never being set.
`error_trace` is `none` both when never set and when the backend reported no
trace — `Debuggers.list` treats the two identically. -/
structure LoadedDebugger where
  option_name : String
  full_name : String
  is_available : Bool
  version : Option (List String)
  error : Option (List String)
  error_trace : Option (List String)
deriving Repr, DecidableEq

/-- One iteration of the loop in `Debuggers._populate_debugger_cache`,
building the snapshot for key `key` whose class constructed the session `d`.
The `try`/`except AttributeError` fallbacks around `splitlines` become the
`none` cases of the session's text fields. -/
def loadedDebugger (key : String) (d : BackendSession) : LoadedDebugger :=
  { option_name := key
    full_name := "[" ++ d.name ++ "]"
    is_available := d.is_available
    version :=
      if d.is_available then
        some (match d.version with
              | some v => splitlines v
              | none => [""])
      else none
    error :=
      if d.is_available then none
      else
        some (match d.loading_error with
              | some e => splitlines e
              | none => [""])
    error_trace := if d.is_available then none else d.loading_error_trace }

/-- `Debuggers._populate_debugger_cache`: iterate the discovered keys in
sorted order, construct each backend (`self.load(key)`; construction is
total under the modelled capability contract) and build its snapshot.
`debuggers` associates each discovered key with the session its class
constructs in the current run context. -/
def _populate_debugger_cache (debuggers : List (String × BackendSession)) :
    List LoadedDebugger :=
  (List.insertionSort (fun a b => a.1 ≤ b.1) debuggers).map
    (fun kd => loadedDebugger kd.1 kd.2)

/-- The body of the per-entry loop in `Debuggers.list`.  Python's indexing
`d.version[0]` / `d.error[0]` raises `IndexError` on an empty line list,
hence the `Option` result (`none` models the uncaught exception). -/
def listEntryMsg (verbose : Bool) (max_o max_n : Nat) (d : LoadedDebugger) :
    Option String := do
  let option_name := padRight d.option_name max_o
  let full_name := padRight d.full_name max_n
  let nai ←
    if d.is_available then
      ((d.version.getD []).head?).map (fun v0 =>
        ("<b>" ++ option_name ++ " " ++ full_name ++ "</>", "<g>YES</>",
         "<b>(" ++ v0 ++ ")</>"))
    else
      ((d.error.getD []).head?).map (fun e0 =>
        ("<y>" ++ option_name ++ " " ++ full_name ++ "</>", "<r>NO</> ",
         "<y>(" ++ e0 ++ ")</>"))
  let msg := nai.1 ++ " " ++ nai.2.1 ++ " " ++ nai.2.2
  if verbose then
    let verbose_info : Option (List String) :=
      if d.is_available then
        if (d.version.getD []).drop 1 ≠ [] then some (d.version.getD [] ++ ["\n"])
        else none
      else d.error_trace
    match verbose_info with
    | some vi =>
      if vi ≠ [] then
        some (msg ++ "\n\n" ++
          (String.intercalate "\n" (vi.map (fun l => "        " ++ pyRstrip l))
            ++ "\n"))
      else some msg
    | none => some msg
  else some msg

/-- The message-building loop of `Debuggers.list` over the snapshots; an
exception from any entry propagates. -/
def listMsgs (verbose : Bool) (max_o max_n : Nat) :
    List LoadedDebugger → Option (List String)
  | [] => some []
  | d :: ds => do
    let msg ← listEntryMsg verbose max_o max_n d
    let rest ← listMsgs verbose max_o max_n ds
    pure (msg :: rest)

/-- `Debuggers.list`: build the snapshots, compute the alignment widths
(Python's `max` raises `ValueError` on an empty sequence), and format one
message per snapshot.  `none` models an uncaught exception escaping the
listing; the final console write (`self.context.o.auto`) is an external
collaborator, so the formatted messages are the result. -/
def debuggersList (verbose : Bool)
    (debuggers : List (String × BackendSession)) : Option (List String) := do
  let ds := _populate_debugger_cache debuggers
  let max_o ← (ds.map (fun d => d.option_name.length)).max?
  let max_n ← (ds.map (fun d => d.full_name.length)).max?
  listMsgs verbose max_o max_n ds

/-! ### Claims about the listing -/

/-- The first-line reads `d.version[0]` / `d.error[0]` in `Debuggers.list`
need each backend text that is present to split into at least one line
(Python: not be the empty string); the `AttributeError` fallback `['']`
always has one line. -/
def sessionTextsOk (d : BackendSession) : Prop :=
  d.version.map splitlines ≠ some [] ∧ d.loading_error.map splitlines ≠ some []

instance (d : BackendSession) : Decidable (sessionTextsOk d) :=
  inferInstanceAs (Decidable (And _ _))

theorem max?_isSome_of_ne_nil {l : List Nat} (h : l ≠ []) :
    ∃ m, l.max? = some m := by
  cases l with
  | nil => exact absurd rfl h
  | cons a t => exact ⟨t.foldl max a, rfl⟩

theorem listEntryMsg_isSome (verbose : Bool) (max_o max_n : Nat)
    (d : LoadedDebugger)
    (h : (if d.is_available then d.version.getD [] else d.error.getD []) ≠ []) :
    (listEntryMsg verbose max_o max_n d).isSome = true := by
  unfold listEntryMsg
  cases hav : d.is_available with
  | false =>
    rw [hav] at h
    simp at h
    obtain ⟨e0, rest, hrest⟩ := List.exists_cons_of_ne_nil h
    simp [hav, hrest]
    split
    · split <;> (try split) <;> simp
    · simp
  | true =>
    rw [hav] at h
    simp at h
    obtain ⟨v0, rest, hrest⟩ := List.exists_cons_of_ne_nil h
    simp [hav, hrest]
    split
    · split <;> (try split) <;> simp
    · simp

theorem listMsgs_isSome_length (verbose : Bool) (max_o max_n : Nat)
    (ds : List LoadedDebugger)
    (h : ∀ d ∈ ds, (listEntryMsg verbose max_o max_n d).isSome = true) :
    ∃ msgs, listMsgs verbose max_o max_n ds = some msgs ∧
      msgs.length = ds.length := by
  induction ds with
  | nil => exact ⟨[], rfl, rfl⟩
  | cons d ds ih =>
    obtain ⟨m, hm⟩ := Option.isSome_iff_exists.mp (h d (by simp))
    obtain ⟨msgs, hmsgs, hlen⟩ := ih (fun x hx => h x (by simp [hx]))
    exact ⟨m :: msgs, by simp [listMsgs, hm, hmsgs], by simp [hlen]⟩

/-- Counterexample to C5 as stated: a backend that reports itself unavailable
with an empty captured error text gives a snapshot whose `error` line list is
empty (Python `''.splitlines() == []`), so the listing's read of `d.error[0]`
raises `IndexError` — the listing propagates an exception (`none`) instead of
completing with a failed entry. -/
theorem debuggers_listing_empty_error_raises :
    ((⟨"GDB 1.0", false, none, some "", none⟩ : BackendSession).is_available
        = false) ∧
    debuggersList false [("gdb", ⟨"GDB 1.0", false, none, some "", none⟩)] =
      none :=
  ⟨rfl, rfl⟩

/-- C5 (amended): for every non-empty discovered set of backends whose
present version/error texts are non-empty (split into at least one line),
the listing completes — no exception escapes — returning one snapshot and one
message per discovered key: entries for all working backends plus, for each
broken one, a failed entry carrying the captured error lines and optional
trace. -/
theorem debuggers_listing_total (verbose : Bool)
    (debuggers : List (String × BackendSession)) (hne : debuggers ≠ [])
    (htexts : ∀ kd ∈ debuggers, sessionTextsOk kd.2) :
    (_populate_debugger_cache debuggers).length = debuggers.length ∧
    (∃ msgs, debuggersList verbose debuggers = some msgs ∧
      msgs.length = debuggers.length) ∧
    (∀ kd ∈ debuggers, kd.2.is_available = false →
      ∃ e ∈ _populate_debugger_cache debuggers,
        e.option_name = kd.1 ∧ e.is_available = false ∧
        e.error = some (match kd.2.loading_error with
                        | some s => splitlines s
                        | none => [""]) ∧
        e.error_trace = kd.2.loading_error_trace) ∧
    (∀ kd ∈ debuggers, kd.2.is_available = true →
      ∃ e ∈ _populate_debugger_cache debuggers,
        e.option_name = kd.1 ∧ e.is_available = true ∧
        e.version = some (match kd.2.version with
                          | some v => splitlines v
                          | none => [""])) := by
  have hperm := List.perm_insertionSort
    (fun a b : String × BackendSession => a.1 ≤ b.1) debuggers
  have hlen : (_populate_debugger_cache debuggers).length = debuggers.length := by
    simp [_populate_debugger_cache, hperm.length_eq]
  have hmem : ∀ e ∈ _populate_debugger_cache debuggers,
      ∃ kd ∈ debuggers, e = loadedDebugger kd.1 kd.2 := by
    intro e he
    simp [_populate_debugger_cache, hperm.mem_iff] at he
    obtain ⟨k, s, hks, he⟩ := he
    exact ⟨(k, s), hks, he.symm⟩
  have hmem' : ∀ kd ∈ debuggers,
      loadedDebugger kd.1 kd.2 ∈ _populate_debugger_cache debuggers := by
    intro kd hkd
    simp [_populate_debugger_cache, hperm.mem_iff]
    exact ⟨kd.1, kd.2, hkd, rfl⟩
  have hok : ∀ e ∈ _populate_debugger_cache debuggers,
      (if e.is_available then e.version.getD [] else e.error.getD []) ≠ [] := by
    intro e he
    obtain ⟨kd, hkd, rfl⟩ := hmem e he
    have hts := htexts kd hkd
    cases hav : kd.2.is_available with
    | true =>
      simp [loadedDebugger, hav]
      cases hv : kd.2.version with
      | none => simp
      | some v =>
        have := hts.1
        rw [hv] at this
        simp at this
        simp [this]
    | false =>
      simp [loadedDebugger, hav]
      cases hl : kd.2.loading_error with
      | none => simp
      | some e' =>
        have := hts.2
        rw [hl] at this
        simp at this
        simp [this]
  refine ⟨hlen, ?_, ?_, ?_⟩
  · have hdne : _populate_debugger_cache debuggers ≠ [] := by
      intro hcon
      rw [hcon] at hlen
      exact hne (List.eq_nil_of_length_eq_zero hlen.symm)
    obtain ⟨m_o, hm_o⟩ := max?_isSome_of_ne_nil
      (l := (_populate_debugger_cache debuggers).map
        (fun d => d.option_name.length)) (by simp [hdne])
    obtain ⟨m_n, hm_n⟩ := max?_isSome_of_ne_nil
      (l := (_populate_debugger_cache debuggers).map
        (fun d => d.full_name.length)) (by simp [hdne])
    obtain ⟨msgs, hmsgs, hmlen⟩ := listMsgs_isSome_length verbose m_o m_n
      (_populate_debugger_cache debuggers)
      (fun d hd => listEntryMsg_isSome verbose m_o m_n d (hok d hd))
    exact ⟨msgs, by simp [debuggersList, hm_o, hm_n, hmsgs], by
      rw [hmlen, hlen]⟩
  · intro kd hkd hav
    refine ⟨loadedDebugger kd.1 kd.2, hmem' kd hkd, rfl, ?_, ?_, ?_⟩ <;>
      simp [loadedDebugger, hav]
  · intro kd hkd hav
    refine ⟨loadedDebugger kd.1 kd.2, hmem' kd hkd, rfl, ?_, ?_⟩ <;>
      simp [loadedDebugger, hav]

/-- Witness for C5 (amended): one broken and one working backend; the listing
completes with two messages. -/
theorem debuggers_listing_total_witness :
    ∃ msgs,
      debuggersList false
        [("gdb", ⟨"GDB 1.0", false, none, some "boom", some ["tr"]⟩),
         ("lldb", ⟨"LLDB", true, some "v1", none, none⟩)] = some msgs ∧
      msgs.length = 2 :=
  (debuggers_listing_total false
    [("gdb", ⟨"GDB 1.0", false, none, some "boom", some ["tr"]⟩),
     ("lldb", ⟨"LLDB", true, some "v1", none, none⟩)]
    (by decide) (by decide)).2.1

/-! ### Out-of-process coordinator: command-parsing phase
(`get_debugger_steps` in `Debuggers.py`) -/

/-- Modelled from the spec: the structured parse failure raised by the
external command parser (§6), exactly the fields the wrapping site reads:
file, line, human-readable message, offending source line, and caret text
pointing at the offending column. -/
structure CommandParseError where
  filename : String
  lineno : Nat
  info : String
  src : String
  caret : String
deriving Repr, DecidableEq

/-- Modelled from the spec: the harness's top-level fatal error type
(`DebuggerException`), carrying one descriptive message. -/
structure DebuggerException where
  msg : String
deriving Repr, DecidableEq

/-- The command-parsing phase of `get_debugger_steps`: populate
`step_collection.commands` from the external parser's outcome, wrapping a
`CommandParseError` into a single `DebuggerException` whose message carries
the file name, line number, message, source line and caret, in the exact
`'parser error: <d>{}({}):</> {}\x0a{}\x0a{}\x0a'` format.  The later phases
(envelope serialization, child process, readback) involve only external
collaborators and never run once this phase raises. -/
def parseCommandsPhase {B D C : Type} (envelope : DextIR B D C)
    (parsed : Except CommandParseError C) :
    Except DebuggerException (DextIR B D C) :=
  match parsed with
  | .error e =>
    .error ⟨"parser error: <d>" ++ e.filename ++ "(" ++ toString e.lineno ++
      "):</> " ++ e.info ++ "\n" ++ e.src ++ "\n" ++ e.caret ++ "\n"⟩
  | .ok cmds => .ok { envelope with commands := some cmds }

/-- C8: a parse failure is wrapped into exactly one descriptive top-level
error whose message interpolates the file name, line number, human-readable
message, offending source line and caret, and the phase produces an error —
never a (partial) trace. -/
theorem parse_failure_wrapped_fatal {B D C : Type} (envelope : DextIR B D C)
    (e : CommandParseError) :
    parseCommandsPhase envelope (Except.error e) =
      Except.error ⟨"parser error: <d>" ++ e.filename ++ "(" ++
        toString e.lineno ++ "):</> " ++ e.info ++ "\n" ++ e.src ++ "\n" ++
        e.caret ++ "\n"⟩ ∧
    ∀ t, parseCommandsPhase envelope (Except.error e) ≠ Except.ok t := by
  refine ⟨rfl, ?_⟩
  intro t hcon
  simp [parseCommandsPhase] at hcon

/-- Witness for C8: a concrete parse error at `main.c:3` is wrapped into the
fully rendered message and no trace is produced. -/
theorem parse_failure_wrapped_fatal_witness :
    parseCommandsPhase (exTrace []) (Except.error
        (⟨"main.c", 3, "bad command", "int x;", "    ^"⟩ : CommandParseError)) =
      Except.error
        ⟨"parser error: <d>main.c(3):</> bad command\nint x;\n    ^\n"⟩ ∧
    parseCommandsPhase (exTrace []) (Except.error
        (⟨"main.c", 3, "bad command", "int x;", "    ^"⟩ : CommandParseError)) ≠
      Except.ok (exTrace []) :=
  ⟨Trans.trans
    (parse_failure_wrapped_fatal (exTrace [])
      ⟨"main.c", 3, "bad command", "int x;", "    ^"⟩).1
    (congrArg Except.error (by decide)),
   (parse_failure_wrapped_fatal (exTrace [])
      ⟨"main.c", 3, "bad command", "int x;", "    ^"⟩).2 (exTrace [])⟩

end Dexter
